import Mathlib

/-!
Shallow embedding of `src/dashboard_interativo.py` (a Streamlit dashboard over
a Jira CSV export) and proofs about its metric-derivation and filtering
pipeline.

Conventions of the embedding:
* A CSV cell is a `String`; an empty cell stands for a missing value (pandas
  reads it as NaN).  A parsed text cell is `Option String` (`none` = NaN) and
  a parsed date cell is `Option Nat` (`none` = NaT), the timestamp counted in
  minutes since 1900-01-01 00:00 (the fixed format has minute resolution and
  its two-digit years land in 1969..2068, so `Nat` suffices).
* Python floats that can be NaN are modelled as `Option ℚ` (`none` = NaN);
  a float division that can raise `ZeroDivisionError` is modelled as an
  `Option ℚ` that is `none` exactly when the divisor is zero.
* pandas comparisons on object columns treat missing entries as `False`
  (`_libs.ops.scalar_compare` short-circuits nulls), so every boolean mask
  maps a missing field to `false`.
-/

namespace Dashboards

/-! ## Calendar arithmetic -/

def isLeapYear (y : Nat) : Bool :=
  (y % 4 == 0 && y % 100 != 0) || y % 400 == 0

def daysInMonth (y m : Nat) : Nat :=
  if m = 2 then (if isLeapYear y then 29 else 28)
  else if m = 4 ∨ m = 6 ∨ m = 9 ∨ m = 11 then 30
  else 31

/-- Days in the months strictly before month `m` of year `y`. -/
def daysBeforeMonth (y m : Nat) : Nat :=
  ((List.range (m - 1)).map (fun i => daysInMonth y (i + 1))).sum

/-- Days from 1900-01-01 to the civil date `y-m-d` (`d` is 1-based). -/
def daysFromBase (y m d : Nat) : Nat :=
  ((List.range (y - 1900)).map (fun i => if isLeapYear (1900 + i) then 366 else 365)).sum
    + daysBeforeMonth y m + (d - 1)

/-! ## The fixed date format
`pd.to_datetime(col, format='%d/%b/%y %H:%M', errors='coerce')`: day of 1-2
digits, a slash, a case-insensitive English month abbreviation, a slash, a
2-digit year (00-68 maps to 2000-2068, 69-99 to 1969-1999), whitespace, hour
and minute of 1-2 digits each; the whole string must match (`exact=True`) and
the civil date must be valid, otherwise the value becomes NaT (`none`). -/

def digitVal (c : Char) : Nat := c.toNat - 48

/-- Read one or two leading decimal digits (greedy), as strptime's numeric
directives do. -/
def upTo2Digits : List Char → Option (Nat × List Char)
  | [] => none
  | c1 :: rest =>
    if c1.isDigit then
      match rest with
      | c2 :: rest2 =>
        if c2.isDigit then some (digitVal c1 * 10 + digitVal c2, rest2)
        else some (digitVal c1, rest)
      | [] => some (digitVal c1, [])
    else none

/-- Read exactly two leading decimal digits (strptime's `%y`). -/
def exactly2Digits : List Char → Option (Nat × List Char)
  | c1 :: c2 :: rest =>
    if c1.isDigit && c2.isDigit then some (digitVal c1 * 10 + digitVal c2, rest)
    else none
  | _ => none

def monthAbbrevs : List String :=
  ["jan", "feb", "mar", "apr", "may", "jun", "jul", "aug", "sep", "oct", "nov", "dec"]

/-- Read a three-letter English month abbreviation, case-insensitively
(strptime's `%b` under the C locale), yielding the 1-based month number. -/
def readMonth : List Char → Option (Nat × List Char)
  | a :: b :: c :: rest =>
    match monthAbbrevs.findIdx? (· == String.mk [a.toLower, b.toLower, c.toLower]) with
    | some i => some (i + 1, rest)
    | none => none
  | _ => none

def expectChar (c : Char) : List Char → Option (List Char)
  | x :: rest => if x = c then some rest else none
  | [] => none

def dropSpaces : List Char → List Char
  | [] => []
  | x :: rest => if x = ' ' then dropSpaces rest else x :: rest

/-- One or more spaces (literal whitespace in a strptime format matches a
whitespace run). -/
def skipSpaces : List Char → Option (List Char)
  | x :: rest => if x = ' ' then some (dropSpaces rest) else none
  | [] => none

/-- Parse a cell under the fixed format, to minutes since 1900-01-01; `none`
models NaT from `errors='coerce'`. -/
def parseDateMinutes (s : String) : Option Nat := do
  let (d, r1) ← upTo2Digits s.data
  let r2 ← expectChar '/' r1
  let (m, r3) ← readMonth r2
  let r4 ← expectChar '/' r3
  let (yy, r5) ← exactly2Digits r4
  let r6 ← skipSpaces r5
  let (hh, r7) ← upTo2Digits r6
  let r8 ← expectChar ':' r7
  let (mi, r9) ← upTo2Digits r8
  let y := if yy ≤ 68 then 2000 + yy else 1900 + yy
  if r9 = [] ∧ 1 ≤ d ∧ d ≤ daysInMonth y m ∧ hh ≤ 23 ∧ mi ≤ 59 then
    some (daysFromBase y m d * 1440 + hh * 60 + mi)
  else none

/-! ## Data model and ingestion (`load_data`, lines 34-59) -/

/-- One data row of the uploaded CSV, restricted to the columns the script
consumes; each field is the raw cell text (`""` = blank cell). -/
structure RawRow where
  issueKey : String
  summary : String
  issueType : String
  status : String
  priority : String
  assignee : String
  created : String
  updated : String
  resolved : String
deriving DecidableEq

/-- pandas turns a blank cell into NaN. -/
def cellOpt (s : String) : Option String := if s = "" then none else some s

/-- Python `str` applied to a cell value (`str(nan) = "nan"`). -/
def pyStr : Option String → String
  | none => "nan"
  | some s => s

/-- Substring test on char lists: `containsSub needle hay` is Python
`needle in hay`. -/
def containsSub (needle : List Char) : List Char → Bool
  | [] => needle.isPrefixOf []
  | c :: rest => needle.isPrefixOf (c :: rest) || containsSub needle rest

/-- Python's `needle in hay` on strings. -/
def pyContains (hay needle : String) : Bool := containsSub needle.data hay.data

/-- Line 53-57: `'Histórias' if x == 'História' else 'Bugs' if 'Bug' in str(x)
else 'Outros'`. -/
def categorize (x : Option String) : String :=
  if x = some "História" then "Histórias"
  else if pyContains (pyStr x) "Bug" then "Bugs"
  else "Outros"

/-- A processed row of the loaded table: text cells as options, the three date
columns parsed under the fixed format, and the derived `Categoria`. -/
structure Row where
  issueKey : Option String
  summary : Option String
  issueType : Option String
  status : Option String
  priority : Option String
  assignee : Option String
  created : Option Nat
  updated : Option Nat
  resolved : Option Nat
  categoria : String
deriving DecidableEq

/-- Per-row processing of `load_data`: parse the three date columns
independently (lines 44-46) and derive `Categoria` (lines 53-57). -/
def mkRow (c : RawRow) : Row where
  issueKey := cellOpt c.issueKey
  summary := cellOpt c.summary
  issueType := cellOpt c.issueType
  status := cellOpt c.status
  priority := cellOpt c.priority
  assignee := cellOpt c.assignee
  created := parseDateMinutes c.created
  updated := parseDateMinutes c.updated
  resolved := parseDateMinutes c.resolved
  categoria := categorize (cellOpt c.issueType)

/-- `load_data` (lines 34-59): returns the processed table `df` and
`resolved_df = df[df['Resolved'].notna()]` (line 49). -/
def loadData (raws : List RawRow) : List Row × List Row :=
  let df := raws.map mkRow
  (df, df.filter (fun r => r.resolved.isSome))

/-- Line 50: `Lead_Time_Days = (Resolved - Created).dt.total_seconds() / 86400`
on a resolved row; `none` is the NaN obtained when `Created` is NaT (and also
stands for the column being absent on unresolved rows). -/
def leadTimeDays (r : Row) : Option ℚ :=
  match r.resolved, r.created with
  | some rt, some ct => some ((((rt : ℤ) - (ct : ℤ)) : ℚ) * 60 / 86400)
  | _, _ => none

/-! ## Sidebar state and filter application (lines 82-119) -/

/-- `.dt.date`: the calendar-day index of a timestamp (time of day dropped). -/
def dayOf (t : Nat) : Nat := t / 1440

/-- The sidebar state: `date_range` is the tuple the date widget returned
(two day indices when the user completed the range), and the two multiselect
value lists. -/
structure FilterSpec where
  dateRange : List Nat
  selStatus : List String
  selTipo : List String

/-- Lines 111-112 row mask: `Created.dt.date >= start & <= end`; a NaT
`Created` compares `False` on both sides. -/
def dateMask (d0 d1 : Nat) (r : Row) : Bool :=
  match r.created with
  | some t => decide (d0 ≤ dayOf t) && decide (dayOf t ≤ d1)
  | none => false

/-- Lines 109-113: the date filter runs only when `len(date_range) == 2`. -/
def dateStage (dr : List Nat) (rows : List Row) : List Row :=
  match dr with
  | [d0, d1] => rows.filter (dateMask d0 d1)
  | _ => rows

/-- The guard `'Todos' not in selected and selected` of lines 115 and 118. -/
def sentinelFree (sel : List String) : Bool :=
  !(sel.contains "Todos") && !(sel.isEmpty)

/-- `df['Status'].isin(sel)`: a NaN status is never a member. -/
def statusMask (sel : List String) (r : Row) : Bool :=
  match r.status with
  | some s => sel.contains s
  | none => false

/-- Lines 115-116. -/
def statusStage (sel : List String) (rows : List Row) : List Row :=
  if sentinelFree sel then rows.filter (statusMask sel) else rows

/-- `df['Categoria'].isin(sel)`; the derived column is never missing. -/
def tipoMask (sel : List String) (r : Row) : Bool := sel.contains r.categoria

/-- Lines 118-119. -/
def tipoStage (sel : List String) (rows : List Row) : List Row :=
  if sentinelFree sel then rows.filter (tipoMask sel) else rows

/-- Lines 108-119: the three filters in the script's order. -/
def applyFilters (spec : FilterSpec) (rows : List Row) : List Row :=
  tipoStage spec.selTipo (statusStage spec.selStatus (dateStage spec.dateRange rows))

/-! ## Date-range widget bounds (lines 82-89) -/

/-- `df['Created'].min()`: NaT entries are skipped, NaT when nothing is left. -/
def minCreated (rows : List Row) : Option Nat :=
  match rows.filterMap (fun r => r.created) with
  | [] => none
  | x :: xs => some (xs.foldl Nat.min x)

/-- `df['Created'].max()`, analogously. -/
def maxCreated (rows : List Row) : Option Nat :=
  match rows.filterMap (fun r => r.created) with
  | [] => none
  | x :: xs => some (xs.foldl Nat.max x)

/-- Lines 82-89: the `(min_date, max_date)` pair handed to `st.date_input`.
When every `Created` is NaT, `min()`/`max()` are NaT, `.date()` on NaT is NaT
again, and `st.date_input` then faults while rendering its bounds
(`pd.NaT.strftime` raises `ValueError`); that fault is the `none` case. -/
def dateWidgetBounds (rows : List Row) : Option (Nat × Nat) :=
  match minCreated rows, maxCreated rows with
  | some a, some b => some (dayOf a, dayOf b)
  | _, _ => none

/-! ## Headline aggregates (lines 133-171) -/

/-- `df_filtered['Status'] == 'Done'`. -/
def isDone (r : Row) : Bool := r.status == some "Done"

/-- pandas median: mean of the two middle elements of the sorted values,
NaN (`none`) on an empty list. -/
def median (xs : List ℚ) : Option ℚ :=
  let s := List.insertionSort (· ≤ ·) xs
  if s.length = 0 then none
  else if s.length % 2 = 1 then some (s.getD (s.length / 2) 0)
  else some ((s.getD (s.length / 2 - 1) 0 + s.getD (s.length / 2) 0) / 2)

/-- `Series.median()` skips NaN entries. -/
def medianSkipNaN (xs : List (Option ℚ)) : Option ℚ := median (xs.filterMap id)

/-- The five headline metrics of lines 133-171.  `leadTimeMedian` and
`bugPct` are `Option ℚ`: for the former `none` is a NaN median, for the
latter `none` marks the `ZeroDivisionError` of the unguarded
`bugs/total_issues*100` at line 169. -/
structure Headline where
  completionRate : ℚ
  leadTimeMedian : Option ℚ
  ratioValorDivida : ℚ
  bugPct : Option ℚ
  wip : Nat
deriving DecidableEq

/-- Lines 133-143 and 169, as a function of the filtered view and of the
`resolved_df` produced at ingestion. -/
def headline (dfFiltered resolvedDf : List Row) : Headline :=
  let total := dfFiltered.length
  let done := (dfFiltered.filter isDone).length
  let historias := (dfFiltered.filter (fun r => r.categoria == "Histórias")).length
  let bugs := (dfFiltered.filter (fun r => r.categoria == "Bugs")).length
  { completionRate := if total > 0 then (done : ℚ) / (total : ℚ) * 100 else 0
    leadTimeMedian :=
      if resolvedDf.length > 0 then medianSkipNaN (resolvedDf.map leadTimeDays) else some 0
    ratioValorDivida := if bugs > 0 then (historias : ℚ) / (bugs : ℚ) else 0
    bugPct := if total = 0 then none else some ((bugs : ℚ) / (total : ℚ) * 100)
    wip := (dfFiltered.filter (fun r => !(statusMask ["Done", "Canceled", "Cancelado"] r))).length }

/-- The script's headline computation for one interaction: load, filter with
the sidebar state, aggregate. -/
def scriptHeadline (raws : List RawRow) (spec : FilterSpec) : Headline :=
  headline (applyFilters spec (loadData raws).1) (loadData raws).2

/-! ## Download and re-ingestion (lines 377-383) -/

def pad2 (n : Nat) : String := if n < 10 then "0" ++ toString n else toString n

/-- Split days-since-1900 into (year, day-of-year). -/
def yearSplit (y days : Nat) : Nat × Nat :=
  if h : days < (if isLeapYear y then 366 else 365) then (y, days)
  else yearSplit (y + 1) (days - (if isLeapYear y then 366 else 365))
termination_by days
decreasing_by
  cases hb : isLeapYear y <;> simp only [hb] at h ⊢ <;> simp at h ⊢ <;> omega

/-- Split a day-of-year into (month, day-of-month minus one); `fuel` counts
the months still to try. -/
def monthSplit (y : Nat) : Nat → Nat → Nat → Nat × Nat
  | 0, m, d => (m, d)
  | fuel + 1, m, d =>
    if d < daysInMonth y m then (m, d)
    else monthSplit y fuel (m + 1) (d - daysInMonth y m)

/-- `to_csv` renders a datetime cell in ISO form `YYYY-MM-DD HH:MM:SS`. -/
def renderTS (t : Nat) : String :=
  let ys := yearSplit 1900 (dayOf t)
  let ms := monthSplit ys.1 11 1 ys.2
  toString ys.1 ++ "-" ++ pad2 ms.1 ++ "-" ++ pad2 (ms.2 + 1) ++ " "
    ++ pad2 (t % 1440 / 60) ++ ":" ++ pad2 (t % 60) ++ ":00"

/-- A missing text cell is written as an empty field. -/
def optCell : Option String → String
  | none => ""
  | some s => s

/-- A NaT date cell is written as an empty field. -/
def tsCell : Option Nat → String
  | none => ""
  | some t => renderTS t

/-- Line 377, `df_filtered.to_csv`, restricted to the columns a re-ingestion
through `load_data` consumes (the extra `Categoria`/`Month` columns of the
real file are recomputed or ignored by `load_data`). -/
def exportRow (r : Row) : RawRow where
  issueKey := optCell r.issueKey
  summary := optCell r.summary
  issueType := optCell r.issueType
  status := optCell r.status
  priority := optCell r.priority
  assignee := optCell r.assignee
  created := tsCell r.created
  updated := tsCell r.updated
  resolved := tsCell r.resolved

/-! ## Cumulative flow (lines 331-333) -/

/-- `sort_values('Created')` key order: NaT sorts last (`na_position='last'`). -/
def createdLeB (a b : Row) : Bool :=
  match a.created, b.created with
  | some x, some y => decide (x ≤ y)
  | some _, none => true
  | none, some _ => false
  | none, none => true

def sortByCreated (rows : List Row) : List Row :=
  List.insertionSort (fun a b => createdLeB a b = true) rows

def doneFlag (r : Row) : Nat := if isDone r then 1 else 0

/-- Running sums with accumulator `acc`: position `i` holds
`acc + sum of the first i+1 entries`. -/
def cumsumFrom (acc : Nat) : List Nat → List Nat
  | [] => []
  | x :: xs => (acc + x) :: cumsumFrom (acc + x) xs

/-- Line 333: `(Status == 'Done').cumsum()`. -/
def cumulativeDone (rows : List Row) : List Nat := cumsumFrom 0 (rows.map doneFlag)

/-- Line 332: `range(1, len+1)`, i.e. the running count of all rows. -/
def cumulativeTotal (rows : List Row) : List Nat := cumsumFrom 0 (rows.map (fun _ => 1))

/-- Line 331: the table behind the cumulative-flow chart. -/
def cfdView (raws : List RawRow) (spec : FilterSpec) : List Row :=
  sortByCreated (applyFilters spec (loadData raws).1)

/-- The concrete row of the spec's lead-time scenario. -/
def scenarioRaw : RawRow :=
  ⟨"T-1", "Scenario row", "História", "Done", "High", "ana", "11/Feb/26 09:00", "",
    "13/Feb/26 09:00"⟩

/-- A one-row table whose every `Created` value is unparsable. -/
def unparsableRaws : List RawRow :=
  [⟨"K-1", "only row", "Bug", "Done", "High", "ana", "not a date", "", ""⟩]

/-- The date stage's row predicate (`true` when the stage is skipped). -/
def datePred (dr : List Nat) (r : Row) : Bool :=
  match dr with
  | [d0, d1] => dateMask d0 d1 r
  | _ => true

/-- The status stage's row predicate (`true` when the stage is disabled). -/
def statusPred (sel : List String) (r : Row) : Bool :=
  if sentinelFree sel then statusMask sel r else true

/-- The category stage's row predicate (`true` when the stage is disabled). -/
def tipoPred (sel : List String) (r : Row) : Bool :=
  if sentinelFree sel then tipoMask sel r else true

set_option maxRecDepth 8000

/-! ## Helper lemmas -/

theorem filterTrueId {α : Type} (l : List α) : l.filter (fun _ => true) = l := by
  induction l with
  | nil => rfl
  | cons a t ih => simp [List.filter_cons, ih]

theorem filterSwap {α : Type} (p q : α → Bool) (l : List α) :
    (l.filter p).filter q = (l.filter q).filter p := by
  induction l with
  | nil => rfl
  | cons a t ih => cases hp : p a <;> cases hq : q a <;> simp [List.filter_cons, hp, hq, ih]

theorem dateStage_eq_filter (dr : List Nat) (rows : List Row) :
    dateStage dr rows = rows.filter (datePred dr) := by
  cases dr with
  | nil => exact (filterTrueId rows).symm
  | cons d0 tl =>
    cases tl with
    | nil => exact (filterTrueId rows).symm
    | cons d1 tl2 =>
      cases tl2 with
      | nil => rfl
      | cons d2 tl3 => exact (filterTrueId rows).symm

theorem statusStage_eq_filter (sel : List String) (rows : List Row) :
    statusStage sel rows = rows.filter (statusPred sel) := by
  unfold statusStage statusPred
  cases h : sentinelFree sel <;> simp [h, filterTrueId]

theorem tipoStage_eq_filter (sel : List String) (rows : List Row) :
    tipoStage sel rows = rows.filter (tipoPred sel) := by
  unfold tipoStage tipoPred
  cases h : sentinelFree sel <;> simp [h, filterTrueId]

theorem mem_of_applyFilters (spec : FilterSpec) (rows : List Row) (r : Row)
    (h : r ∈ applyFilters spec rows) : r ∈ rows := by
  rw [applyFilters, dateStage_eq_filter, statusStage_eq_filter, tipoStage_eq_filter] at h
  exact List.mem_of_mem_filter (List.mem_of_mem_filter (List.mem_of_mem_filter h))

/-- Every row of a loaded table carries the derived category of its own
issue-type cell, and its issue-type cell survives a write-out/read-in cycle. -/
theorem mem_loadData_inv (raws : List RawRow) (r : Row) (h : r ∈ (loadData raws).1) :
    r.categoria = categorize r.issueType ∧ cellOpt (optCell r.issueType) = r.issueType := by
  obtain ⟨c, _, rfl⟩ := List.mem_map.mp h
  refine ⟨rfl, ?_⟩
  show cellOpt (optCell (cellOpt c.issueType)) = cellOpt c.issueType
  by_cases h0 : c.issueType = "" <;> simp [cellOpt, optCell, h0]

theorem cumsumFrom_length (acc : Nat) (xs : List Nat) :
    (cumsumFrom acc xs).length = xs.length := by
  induction xs generalizing acc with
  | nil => rfl
  | cons x tl ih => simp [cumsumFrom, ih]

theorem cumsumFrom_getD (xs : List Nat) :
    ∀ acc i, i < xs.length → (cumsumFrom acc xs).getD i 0 = acc + (xs.take (i + 1)).sum := by
  induction xs with
  | nil => intro acc i h; simp at h
  | cons x tl ih =>
    intro acc i h
    cases i with
    | zero => simp [cumsumFrom]
    | succ j =>
      have hj : j < tl.length := by simpa using h
      simp only [cumsumFrom, List.getD_cons_succ, List.take_succ_cons, List.sum_cons]
      rw [ih (acc + x) j hj]
      omega

theorem sum_take_le (xs : List Nat) :
    (∀ x ∈ xs, x ≤ 1) → ∀ k, (xs.take k).sum ≤ k := by
  induction xs with
  | nil => intro _ k; simp
  | cons x tl ih =>
    intro hx k
    cases k with
    | zero => simp
    | succ j =>
      have h1 : x ≤ 1 := hx x (by simp)
      have h2 := ih (fun y hy => hx y (by simp [hy])) j
      simp only [List.take_succ_cons, List.sum_cons]
      omega

theorem sum_take_mono (xs : List Nat) :
    ∀ j k, j ≤ k → (xs.take j).sum ≤ (xs.take k).sum := by
  induction xs with
  | nil => intro j k _; simp
  | cons x tl ih =>
    intro j k h
    cases j with
    | zero => simp
    | succ j2 =>
      cases k with
      | zero => omega
      | succ k2 =>
        simp only [List.take_succ_cons, List.sum_cons]
        exact Nat.add_le_add_left (ih j2 k2 (by omega)) x

theorem take_sum_ones (l : List Row) :
    ∀ k, k ≤ l.length → ((l.map (fun _ => (1 : Nat))).take k).sum = k := by
  induction l with
  | nil => intro k h; simp at h; simp [h]
  | cons a tl ih =>
    intro k h
    cases k with
    | zero => simp
    | succ j =>
      have hj : j ≤ tl.length := by simpa using h
      simp only [List.map_cons, List.take_succ_cons, List.sum_cons, ih j hj]
      omega

/-! ## Claim theorems -/

/-- Claim C1: on every row the derived category is the pure function
`categorize` of the issue-type cell, taking exactly the three values
`Histórias`/`Bugs`/`Outros`: `Histórias` exactly on the exact label match,
`Bugs` when Python's case-sensitive substring test finds `"Bug"` and the
exact match failed, `Outros` otherwise. -/
theorem categoria_pure_three_way (c : RawRow) :
    (mkRow c).categoria = categorize (cellOpt c.issueType)
    ∧ ∀ x : Option String,
        (categorize x = "Histórias" ∨ categorize x = "Bugs" ∨ categorize x = "Outros")
        ∧ (categorize x = "Histórias" ↔ x = some "História")
        ∧ (categorize x = "Bugs" ↔ x ≠ some "História" ∧ pyContains (pyStr x) "Bug" = true)
        ∧ (categorize x = "Outros" ↔ x ≠ some "História" ∧ pyContains (pyStr x) "Bug" = false) := by
  refine ⟨rfl, fun x => ?_⟩
  by_cases h1 : x = some "História"
  · simp [categorize, h1]
  · by_cases h2 : pyContains (pyStr x) "Bug" = true
    · simp [categorize, h1, h2]
    · simp [categorize, h1, h2]

/-- Claim C2: the lead-time column exists for exactly the rows with a
non-null resolved timestamp, each defined entry is the minute difference
resolved minus created rendered in fractional days at full precision, and
the spec's scenario row (created 11/Feb/26 09:00, resolved 13/Feb/26 09:00)
gets exactly 2.0 days. -/
theorem leadTime_resolved_only (raws : List RawRow) (rt ct : Nat) :
    (∀ r, r ∈ (loadData raws).1 → (r ∈ (loadData raws).2 ↔ r.resolved ≠ none))
    ∧ (∀ r : Row, r.resolved = some rt → r.created = some ct →
        leadTimeDays r = some ((((rt : ℤ) - (ct : ℤ)) : ℚ) / 1440))
    ∧ leadTimeDays (mkRow scenarioRaw) = some 2 := by
  refine ⟨fun r hr => ?_, fun r h1 h2 => ?_, ?_⟩
  · show r ∈ List.filter (fun r => r.resolved.isSome) (raws.map mkRow) ↔ _
    rw [List.mem_filter, Option.isSome_iff_ne_none]
    exact and_iff_right hr
  · rw [leadTimeDays, h1, h2]
    norm_num
    ring
  · have hr : (mkRow scenarioRaw).resolved = some 66332700 := by decide
    have hc : (mkRow scenarioRaw).created = some 66329820 := by decide
    rw [leadTimeDays, hr, hc]
    norm_num

/-- Claim C3 (code evaluated at the failing input): on an empty filtered
view the guarded aggregates are all defined — completion rate 0, ratio 0,
median placeholder 0 — but the bug-percentage metric of line 169 divides
`bugs` by `total_issues` with no guard and faults (`none`). -/
theorem emptyView_bugRate_faults :
    (headline [] []).completionRate = 0
    ∧ (headline [] []).ratioValorDivida = 0
    ∧ (headline [] []).leadTimeMedian = some 0
    ∧ (headline [] []).bugPct = none :=
  ⟨rfl, rfl, rfl, rfl⟩

/-- Claim C4: the headline median lead time is computed from the
resolved-records subset built at ingestion, so its value is the same under
every selection of date-range, status and category filters. -/
theorem leadTimeMedian_filter_independent (raws : List RawRow) (spec1 spec2 : FilterSpec) :
    (scriptHeadline raws spec1).leadTimeMedian = (scriptHeadline raws spec2).leadTimeMedian
    ∧ (scriptHeadline raws spec1).leadTimeMedian =
        (if (loadData raws).2.length > 0 then medianSkipNaN ((loadData raws).2.map leadTimeDays)
         else some 0) :=
  ⟨rfl, rfl⟩

/-- Claim C9: an empty multiselect (neither the `Todos` sentinel nor any
concrete value) disables the status and category filters entirely, keeping
every row. -/
theorem emptySelection_disables_filters (rows : List Row) :
    statusStage [] rows = rows ∧ tipoStage [] rows = rows :=
  ⟨rfl, rfl⟩

/-- Claim C5: with a complete range the date filter keeps exactly the rows
whose created day lies inclusively between the endpoints, a null created
timestamp is never kept, and an incomplete range skips the filter. -/
theorem dateFilter_membership (d0 d1 : Nat) (dr : List Nat) (rows : List Row) (r : Row) :
    (r ∈ dateStage [d0, d1] rows ↔
      r ∈ rows ∧ ∃ t, r.created = some t ∧ d0 ≤ dayOf t ∧ dayOf t ≤ d1)
    ∧ (r.created = none → r ∉ dateStage [d0, d1] rows)
    ∧ (dr.length ≠ 2 → dateStage dr rows = rows) := by
  have hm : (dateMask d0 d1 r = true) ↔
      (∃ t, r.created = some t ∧ d0 ≤ dayOf t ∧ dayOf t ≤ d1) := by
    cases h : r.created <;> simp [dateMask, h]
  refine ⟨?_, ?_, ?_⟩
  · show r ∈ List.filter (dateMask d0 d1) rows ↔ _
    rw [List.mem_filter, hm]
  · intro h
    show r ∉ List.filter (dateMask d0 d1) rows
    rw [List.mem_filter]
    simp [dateMask, h]
  · intro h
    cases dr with
    | nil => rfl
    | cons a tl =>
      cases tl with
      | nil => rfl
      | cons b tl2 =>
        cases tl2 with
        | nil => exact absurd rfl h
        | cons c2 tl3 => rfl

/-- Claim C6: for a fixed spec the three filter stages are filters by
independent row predicates, so every application order produces the row set
the script's fixed order produces. -/
theorem filter_order_independent (spec : FilterSpec) (rows : List Row) :
    applyFilters spec rows
        = statusStage spec.selStatus (tipoStage spec.selTipo (dateStage spec.dateRange rows))
    ∧ applyFilters spec rows
        = tipoStage spec.selTipo (dateStage spec.dateRange (statusStage spec.selStatus rows))
    ∧ applyFilters spec rows
        = dateStage spec.dateRange (tipoStage spec.selTipo (statusStage spec.selStatus rows))
    ∧ applyFilters spec rows
        = statusStage spec.selStatus (dateStage spec.dateRange (tipoStage spec.selTipo rows))
    ∧ applyFilters spec rows
        = dateStage spec.dateRange (statusStage spec.selStatus (tipoStage spec.selTipo rows)) := by
  unfold applyFilters
  simp only [dateStage_eq_filter, statusStage_eq_filter, tipoStage_eq_filter]
  refine ⟨?_, ?_, ?_, ?_, ?_⟩
  · exact filterSwap _ _ _
  · exact congrArg _ (filterSwap _ _ _)
  · rw [filterSwap (datePred spec.dateRange) (statusPred spec.selStatus) rows,
      filterSwap (datePred spec.dateRange) (tipoPred spec.selTipo)
        (rows.filter (statusPred spec.selStatus))]
  · rw [filterSwap (statusPred spec.selStatus) (tipoPred spec.selTipo)
      (rows.filter (datePred spec.dateRange)),
      filterSwap (datePred spec.dateRange) (tipoPred spec.selTipo) rows]
  · rw [filterSwap (datePred spec.dateRange) (statusPred spec.selStatus) rows,
      filterSwap (datePred spec.dateRange) (tipoPred spec.selTipo)
        (rows.filter (statusPred spec.selStatus)),
      filterSwap (statusPred spec.selStatus) (tipoPred spec.selTipo) rows]

/-- Claim C7, counterexample: a table whose only `Created` value is
unparsable is ingested without loss (the field is nulled, the row kept), yet
the display pipeline's date-widget bounds step (lines 82-89) has no value —
`min()`/`.date()` give NaT and `st.date_input` faults on NaT bounds — so the
pipeline does not survive the all-unparsable-`Created` case the claim
includes. -/
theorem allCreatedUnparsable_widget_faults :
    (loadData unparsableRaws).1.length = 1
    ∧ (loadData unparsableRaws).1.map (fun r => r.created) = [none]
    ∧ dateWidgetBounds (loadData unparsableRaws).1 = none
    ∧ (headline (dateStage [0, 0] (loadData unparsableRaws).1) (loadData unparsableRaws).2).bugPct
        = none :=
  ⟨rfl, rfl, rfl, rfl⟩

/-- Claim C7 as amended: an unparsable value in any of the three date
columns nulls only that field, every row is retained, and the display
pipeline's date-bounds step is defined whenever at least one `Created` value
parses. -/
theorem malformed_fields_null_row_kept (raws : List RawRow) :
    (loadData raws).1.length = raws.length
    ∧ (∀ c, c ∈ raws → mkRow c ∈ (loadData raws).1
        ∧ (mkRow c).created = parseDateMinutes c.created
        ∧ (mkRow c).updated = parseDateMinutes c.updated
        ∧ (mkRow c).resolved = parseDateMinutes c.resolved)
    ∧ ((∃ c, c ∈ raws ∧ (parseDateMinutes c.created).isSome = true) →
        dateWidgetBounds (loadData raws).1 ≠ none) := by
  refine ⟨by simp [loadData], fun c hc => ⟨List.mem_map_of_mem _ hc, rfl, rfl, rfl⟩, ?_⟩
  rintro ⟨c, hc, hs⟩
  obtain ⟨t, ht⟩ := Option.isSome_iff_exists.mp hs
  have hmem : t ∈ (loadData raws).1.filterMap (fun r => r.created) := by
    rw [List.mem_filterMap]
    exact ⟨mkRow c, List.mem_map_of_mem _ hc, ht⟩
  unfold dateWidgetBounds minCreated maxCreated
  cases h : (loadData raws).1.filterMap (fun r => r.created) with
  | nil => rw [h] at hmem; simp at hmem
  | cons x xs => simp

/-- Claim C8: exporting any filtered view and re-ingesting it through
`load_data` preserves the row count and every row's derived category (the
date cells are re-parsed under the fixed format and may only survive that
way). -/
theorem export_reingest_roundtrip (raws : List RawRow) (spec : FilterSpec) :
    (loadData ((applyFilters spec (loadData raws).1).map exportRow)).1.length
      = (applyFilters spec (loadData raws).1).length
    ∧ (loadData ((applyFilters spec (loadData raws).1).map exportRow)).1.map
        (fun r => r.categoria)
      = (applyFilters spec (loadData raws).1).map (fun r => r.categoria) := by
  refine ⟨by simp [loadData], ?_⟩
  show (((applyFilters spec (loadData raws).1).map exportRow).map mkRow).map
      (fun r => r.categoria) = _
  rw [List.map_map, List.map_map]
  apply List.map_congr_left
  intro r hr
  have hinv := mem_loadData_inv raws r (mem_of_applyFilters spec (loadData raws).1 r hr)
  show (mkRow (exportRow r)).categoria = r.categoria
  show categorize (cellOpt (optCell r.issueType)) = r.categoria
  rw [hinv.2, ← hinv.1]

/-- Claim C10: in the cumulative-flow series over the sorted filtered view,
each running Done count is at most the running total, the running total at
position `i` is `i+1`, and both series are non-decreasing. -/
theorem cfd_running_counts (raws : List RawRow) (spec : FilterSpec) (i : Nat)
    (h : i < (cfdView raws spec).length) :
    (cumulativeDone (cfdView raws spec)).getD i 0
        ≤ (cumulativeTotal (cfdView raws spec)).getD i 0
    ∧ (cumulativeTotal (cfdView raws spec)).getD i 0 = i + 1
    ∧ (i + 1 < (cfdView raws spec).length →
        (cumulativeDone (cfdView raws spec)).getD i 0
            ≤ (cumulativeDone (cfdView raws spec)).getD (i + 1) 0
        ∧ (cumulativeTotal (cfdView raws spec)).getD i 0
            ≤ (cumulativeTotal (cfdView raws spec)).getD (i + 1) 0) := by
  have hdone : ∀ j, j < (cfdView raws spec).length →
      (cumulativeDone (cfdView raws spec)).getD j 0
        = (((cfdView raws spec).map doneFlag).take (j + 1)).sum := by
    intro j hj
    have := cumsumFrom_getD ((cfdView raws spec).map doneFlag) 0 j (by simpa using hj)
    simpa [cumulativeDone] using this
  have htot : ∀ j, j < (cfdView raws spec).length →
      (cumulativeTotal (cfdView raws spec)).getD j 0 = j + 1 := by
    intro j hj
    have := cumsumFrom_getD ((cfdView raws spec).map (fun _ => 1)) 0 j (by simpa using hj)
    rw [cumulativeTotal, this, take_sum_ones (cfdView raws spec) (j + 1) (by omega)]
    omega
  have hflag : ∀ x ∈ (cfdView raws spec).map doneFlag, x ≤ 1 := by
    intro x hx
    obtain ⟨r, _, rfl⟩ := List.mem_map.mp hx
    by_cases hd : isDone r = true <;> simp [doneFlag, hd]
  refine ⟨?_, htot i h, fun h2 => ⟨?_, ?_⟩⟩
  · rw [hdone i h, htot i h]
    exact sum_take_le _ hflag (i + 1)
  · rw [hdone i h, hdone (i + 1) h2]
    exact sum_take_mono _ _ _ (by omega)
  · rw [htot i h, htot (i + 1) h2]
    omega

/-- Witness for C10: the sorted one-row view of the scenario table at
position 0. -/
theorem cfd_running_counts_witness :
    0 < (cfdView [scenarioRaw] ⟨[], [], []⟩).length
    ∧ ((cumulativeDone (cfdView [scenarioRaw] ⟨[], [], []⟩)).getD 0 0
          ≤ (cumulativeTotal (cfdView [scenarioRaw] ⟨[], [], []⟩)).getD 0 0
      ∧ (cumulativeTotal (cfdView [scenarioRaw] ⟨[], [], []⟩)).getD 0 0 = 0 + 1
      ∧ (0 + 1 < (cfdView [scenarioRaw] ⟨[], [], []⟩).length →
          (cumulativeDone (cfdView [scenarioRaw] ⟨[], [], []⟩)).getD 0 0
              ≤ (cumulativeDone (cfdView [scenarioRaw] ⟨[], [], []⟩)).getD (0 + 1) 0
          ∧ (cumulativeTotal (cfdView [scenarioRaw] ⟨[], [], []⟩)).getD 0 0
              ≤ (cumulativeTotal (cfdView [scenarioRaw] ⟨[], [], []⟩)).getD (0 + 1) 0)) :=
  ⟨by decide, cfd_running_counts [scenarioRaw] ⟨[], [], []⟩ 0 (by decide)⟩

end Dashboards
